import Mathlib

/-!
Verification development for the FarmIQ inference server
(`src/inference_server.py`).

The server is a linear request pipeline: decode image → preprocess →
classifier → post-process scores → validate → top-k → JSON response.
We embed the pieces of that pipeline that the verified properties talk
about:

* floating-point prediction entries are modelled by `FVal`
  (a rational number, `NaN`, or a signed infinity); the purely finite
  softmax arithmetic is modelled separately over `ℚ` with the
  exponential as an abstract strictly-positive function;
* `np_argmax`, `np_argsort`, `np_unique_count`, `np_max` model the
  numpy calls used by the handlers (argsort is modelled as the stable
  ascending sort, breaking ties by original index);
* `predict_disease`, `predict_soil`, `predict_soil_debug` model the
  three POST handlers' control flow (content-type gate, debug-file
  write, validation checks, label lookups, response assembly), taking
  the outcome of the stages that live outside this file (image
  decoding, the opaque Keras model) as explicit arguments.
-/

/-- A floating-point value as it can appear in a prediction vector:
a finite value (modelled by a rational), `NaN`, or a signed infinity. -/
inductive FVal where
  | nan : FVal
  | posinf : FVal
  | neginf : FVal
  | num : ℚ → FVal
deriving DecidableEq

/-- `np.isnan` on a single entry. -/
def FVal.isNaNb : FVal → Bool
  | .nan => true
  | _ => false

/-- `np.isinf` on a single entry (true for either signed infinity). -/
def FVal.isInfb : FVal → Bool
  | .posinf => true
  | .neginf => true
  | _ => false

/-- A float that `json.dumps(.., allow_nan=False)` — the renderer used
by Starlette's `JSONResponse` — refuses to serialize: NaN or either
infinity. -/
def FVal.jsonBadb (x : FVal) : Bool :=
  FVal.isNaNb x || FVal.isInfb x

/-- IEEE-style strict less-than on `FVal`: any comparison involving
`NaN` is false; `-inf < finite < +inf`; finite values compare as
rationals. -/
def FVal.ltb : FVal → FVal → Bool
  | _, .nan => false
  | .nan, _ => false
  | _, .neginf => false
  | .neginf, _ => true
  | .posinf, _ => false
  | .num _, .posinf => true
  | .num a, .num b => decide (a < b)

/-- Non-strict comparison used to state "descending confidence". -/
def FVal.leb (a b : FVal) : Bool :=
  FVal.ltb a b || a == b

/-- `len(np.unique(arr))`: the number of distinct values in the vector. -/
def np_unique_count (v : List FVal) : ℕ :=
  v.dedup.length

/-- Element access with numpy's semantics at in-range indices
(out-of-range reads, which raise in Python, are given a default here;
every use is at an index that is separately shown to be in range, or is
guarded by `List.get?`). -/
def fget (v : List FVal) (i : ℕ) : FVal :=
  match v.get? i with
  | some x => x
  | none => FVal.num 0

/-- Accumulator loop of `np.argmax`: scan the remaining entries,
replacing the current best index only on a strictly greater value, so
the first occurrence of the maximum wins. -/
def np_argmax_go : List FVal → ℕ → ℕ → FVal → ℕ
  | [], _, best, _ => best
  | x :: xs, i, best, bv =>
    if FVal.ltb bv x then np_argmax_go xs (i + 1) i x
    else np_argmax_go xs (i + 1) best bv

/-- `int(np.argmax(arr))`: index of the first maximal entry
(0 on the empty vector, which raises in numpy and never occurs). -/
def np_argmax : List FVal → ℕ
  | [] => 0
  | x :: xs => np_argmax_go xs 1 0 x

/-- Comparator on indices used to model `np.argsort`: ascending by
value, ties broken by ascending original index (the deterministic
stable ordering). -/
def ixLeb (v : List FVal) (i j : ℕ) : Bool :=
  FVal.ltb (fget v i) (fget v j) || ((fget v i == fget v j) && decide (i ≤ j))

/-- Propositional form of `ixLeb`. -/
def ixLe (v : List FVal) (i j : ℕ) : Prop :=
  ixLeb v i j = true

instance (v : List FVal) : DecidableRel (ixLe v) :=
  fun i j => inferInstanceAs (Decidable (ixLeb v i j = true))

/-- `np.argsort(arr)`: the index list `0, …, len(arr)-1` sorted
ascending by value (stable: ties keep ascending index order). -/
def np_argsort (v : List FVal) : List ℕ :=
  List.insertionSort (ixLe v) (List.range v.length)

/-- `np.argsort(arr)[-k:][::-1]`: the indices of the `k` largest
entries, in descending order of value. -/
def topk (v : List FVal) (k : ℕ) : List ℕ :=
  ((np_argsort v).drop (v.length - k)).reverse

/-- The configured disease label set (`CLASS_NAMES`, lines 96–136). -/
def CLASS_NAMES : List String := [
  "Apple___Apple_scab",
  "Apple___Black_rot",
  "Apple___Cedar_apple_rust",
  "Apple___healthy",
  "Background_without_leaves",
  "Blueberry___healthy",
  "Cherry___Powdery_mildew",
  "Cherry___healthy",
  "Corn___Cercospora_leaf_spot Gray_leaf_spot",
  "Corn___Common_rust",
  "Corn___Northern_Leaf_Blight",
  "Corn___healthy",
  "Grape___Black_rot",
  "Grape___Esca_(Black_Measles)",
  "Grape___Leaf_blight_(Isariopsis_Leaf_Spot)",
  "Grape___healthy",
  "Orange___Haunglongbing_(Citrus_greening)",
  "Peach___Bacterial_spot",
  "Peach___healthy",
  "Pepper,_bell___Bacterial_spot",
  "Pepper,_bell___healthy",
  "Potato___Early_blight",
  "Potato___Late_blight",
  "Potato___healthy",
  "Raspberry___healthy",
  "Soybean___healthy",
  "Squash___Powdery_mildew",
  "Strawberry___Leaf_scorch",
  "Strawberry___healthy",
  "Tomato___Bacterial_spot",
  "Tomato___Early_blight",
  "Tomato___Late_blight",
  "Tomato___Leaf_Mold",
  "Tomato___Septoria_leaf_spot",
  "Tomato___Spider_mites Two-spotted_spider_mite",
  "Tomato___Target_Spot",
  "Tomato___Tomato_Yellow_Leaf_Curl_Virus",
  "Tomato___Tomato_mosaic_virus",
  "Tomato___healthy"]

/-- The configured soil label set (`SOIL_CLASS_NAMES`, lines 191–197). -/
def SOIL_CLASS_NAMES : List String := [
  "Black Soil",
  "Cinder Soil",
  "Laterite Soil",
  "Peat Soil",
  "Yellow Soil"]

/-- One record of the static soil recommendation table. -/
structure SoilRec where
  characteristics : String
  best_crops : List String
  fertilizer : List String
  tips : List String
  irrigation : String
deriving DecidableEq

/-- `SOIL_RECOMMENDATIONS.get(label, ..)` (lines 200–272): exact-match
lookup in the static table; `none` models the empty default record. -/
def SOIL_RECOMMENDATIONS (label : String) : Option SoilRec :=
  if label = "Black Soil" then some
    { characteristics := "Clayey, moisture-retentive, rich in lime, iron, magnesia; good for deep-rooted crops.",
      best_crops := ["Cotton", "Maize", "Wheat", "Sunflower", "Moong/Chickpea"],
      fertilizer := [
        "Apply 1 bag DAP per acre before sowing.",
        "Use 1–1.5 bags Urea per acre in 2 split doses during crop growth.",
        "Add 2 tractor-trolleys gobar compost to soften soil."],
      tips := [
        "Black soil cracks; maintain steady moisture.",
        "Use mulching in cotton to reduce evaporation.",
        "Avoid over-watering with tube-well irrigation."],
      irrigation := "Light, frequent irrigation for cotton/maize; stage-wise irrigation for wheat." }
  else if label = "Cinder Soil" then some
    { characteristics := "Soil derived from volcanic ash/lava, porous, well-drained, rich in minerals but sometimes low in organic matter",
      best_crops := ["Kinnow", "Grapes", "Cotton", "Sugarcane", "Vegetables"],
      fertilizer := [
        "Apply 1 bag DAP per acre before sowing.",
        "Use 2–3 bags Urea in split doses.",
        "Apply mulch or wheat straw to conserve moisture."],
      tips := [
        "Soil is porous; keep soil covered.",
        "Drip irrigation recommended for kinnow and grapes."],
      irrigation := "Frequent light irrigation with mulching." }
  else if label = "Laterite Soil" then some
    { characteristics := "Red/reddish-brown, iron and aluminum rich, acidic pH, low fertility",
      best_crops := ["Maize", "Sugarcane", "Mustard", "Groundnut", "Vegetables"],
      fertilizer := [
        "Apply 1 bag DAP per acre before sowing.",
        "Use 1 bag MOP for sugarcane/vegetables.",
        "Add compost or green manure (sunhemp/dhaincha)."],
      tips := [
        "Foothill regions—risk of erosion; use contour farming.",
        "Add crop residues to improve soil body."],
      irrigation := "Regular irrigation; avoid runoff." }
  else if label = "Peat Soil" then some
    { characteristics := "Organic-rich, dark brown/black, acidic, high water retention, low nutrient availability",
      best_crops := ["Rice", "Potato", "Berseem", "Oat", "Vegetables"],
      fertilizer := [
        "Apply 1 bag DAP per acre before sowing.",
        "Add cow dung compost.",
        "Mix sand to improve drainage."],
      tips := [
        "Peat soil stays wet; avoid heavy irrigation.",
        "Ideal for paddy-fodder cropping system."],
      irrigation := "Light irrigation only; keep moist but not water-logged except for rice." }
  else if label = "Yellow Soil" then some
    { characteristics := "Sandy to sandy-loam texture, low organic matter, acidic pH, low fertility, well-drained",
      best_crops := ["Maize", "Groundnut", "Sugarcane", "Vegetables", "Pulses"],
      fertilizer := [
        "Apply 1 bag DAP per acre before sowing.",
        "Use 1.5–2 bags Urea during crop growth.",
        "Add compost or green manure crops."],
      tips := [
        "Add compost to improve soil life.",
        "Grow dhaincha for 45 days before main crop."],
      irrigation := "Moderate irrigation; avoid over-watering to prevent soil washing." }
  else none

/-- `str.startswith(pat)` as a computation on the underlying character
lists (the argument order is string first, pattern second). -/
def clStartsWith : List Char → List Char → Bool
  | _, [] => true
  | [], _ :: _ => false
  | c :: cs, d :: ds => (c == d) && clStartsWith cs ds

/-- Content-type validation shared by `/predict` and `/soil-predict`
(lines 384–386 and 572–574): the header must be present and start with
`image/` (a missing or empty header is falsy in Python and rejected). -/
def validContentType : Option String → Bool
  | none => false
  | some s => clStartsWith s.toList ("image/").toList

/-- Outcome of a request handler: a JSON payload, or an
`HTTPException` with its status code and detail message. -/
inductive HResult (α : Type) where
  | ok : α → HResult α
  | err : ℕ → String → HResult α
deriving DecidableEq

/-- The HTTP status of a handler outcome (`none` on success). -/
def HResult.statusOf {α : Type} : HResult α → Option ℕ
  | .ok _ => none
  | .err s _ => some s

/-- Whether a handler outcome is a success response. -/
def HResult.isOk {α : Type} : HResult α → Bool
  | .ok _ => true
  | .err _ _ => false

/-- Top-prediction index of `/predict` (lines 466–474): take the
arg-max over the whole vector, and if it falls outside the label set
re-take it over the first `len(CLASS_NAMES)` entries only. -/
def diseaseTopIdx (v : List FVal) : ℕ :=
  if CLASS_NAMES.length ≤ np_argmax v then np_argmax (v.take CLASS_NAMES.length)
  else np_argmax v

/-- Top-3 indices of `/predict` (line 486):
`np.argsort(pred_array[:len(CLASS_NAMES)])[-3:][::-1]`. -/
def diseaseTop3 (v : List FVal) : List ℕ :=
  topk (v.take CLASS_NAMES.length) 3

/-- Top-3 indices of `/soil-predict` (line 646):
`np.argsort(pred_array)[-3:][::-1]` — note: no restriction to the
label-set range. -/
def soilTop3 (v : List FVal) : List ℕ :=
  topk v 3

/-- Label lookup of `/soil-predict` (lines 633–635):
`SOIL_CLASS_NAMES[int(np.argmax(pred_array))]`; `none` models the
`IndexError` raised when the arg-max index is out of range. -/
def soilTopLabel (v : List FVal) : Option String :=
  SOIL_CLASS_NAMES.get? (np_argmax v)

/-- Success payload of `/predict` (lines 497–512); the metadata block
(request id, timings, shapes) is not modelled. -/
structure DiseaseResponse where
  class_name : String
  confidence : FVal
  top_3 : List (String × FVal)
deriving DecidableEq

/-- Success payload of `/soil-predict` (lines 662–677); the metadata
block is modelled only by its `debug_file_path` entry, which records
whether the best-effort debug write succeeded. -/
structure SoilResponse where
  soil_label_raw : String
  soil_type : String
  confidence : FVal
  top_3 : List (String × FVal)
  recommendations : Option SoilRec
  debug_file_path : Option String
deriving DecidableEq

/-- Success payload of `/soil-predict-debug` (lines 758–773); the
image hash, byte counts and floating-point distribution statistics are
not modelled. -/
structure DebugResponse where
  debug_mode : Bool
  debug_file_saved : String
  top_5_predictions : List (ℕ × String × FVal)
  unique_values_count : ℕ
deriving DecidableEq

/-- The `/predict` handler (lines 367–546), from the content-type gate
onwards.  `image_ok` is the outcome of decoding/preprocessing the
upload; `pred_array` is the post-processed score vector (the softmax
stage is modelled separately by `postprocess`).  Checks, in source
order: content type, image decode, NaN, Inf, all-entries-identical;
then top-1 (with range adjustment) and top-3 assembly. -/
def predict_disease (content_type : Option String) (image_ok : Bool)
    (pred_array : List FVal) : HResult DiseaseResponse :=
  if validContentType content_type = false then .err 400 ("File must be an image")
  else if image_ok = false then .err 400 ("Invalid image")
  else if pred_array.any FVal.isNaNb = true then
    .err 500 ("Model prediction failed: NaN values")
  else if pred_array.any FVal.isInfb = true then
    .err 500 ("Model prediction failed: Inf values")
  else if np_unique_count pred_array = 1 then
    .err 500 ("Model prediction failed: All predictions are identical")
  else
    .ok { class_name := CLASS_NAMES.getD (diseaseTopIdx pred_array) (""),
          confidence := fget pred_array (diseaseTopIdx pred_array),
          top_3 := (diseaseTop3 pred_array).map
            (fun i => (CLASS_NAMES.getD i (""), fget pred_array i)) }

/-- The `/soil-predict` handler (lines 551–709).  `soil_loaded` is
whether the soil model loaded at startup; `write_ok` is the outcome of
the best-effort debug-copy write (guarded by its own try/except, lines
583–590, so it only affects the `debug_file_path` metadata); checks,
in source order: model presence (503), content type (400), image
decode (400), NaN (500), all-entries-identical (500) — there is no Inf
check in this handler.  The label lookups at lines 635, 640–643 and
646–650 raise `IndexError` (surfaced as a 500) when an index falls
outside `SOIL_CLASS_NAMES`.  Finally, `JSONResponse(content=response)`
at line 688 renders with `json.dumps(.., allow_nan=False)` inside the
handler's try, so a non-finite float among the serialized prediction
fields (the top confidence or a top-3 confidence) raises `ValueError`
there and the generic `except Exception` at line 699 turns it into a
500 as well. -/
def predict_soil (soil_loaded : Bool) (content_type : Option String)
    (write_ok : Bool) (debug_path : String) (image_ok : Bool)
    (pred_array : List FVal) : HResult SoilResponse :=
  if soil_loaded = false then .err 503 ("Soil model not loaded. Check server logs.")
  else if validContentType content_type = false then .err 400 ("File must be an image")
  else if image_ok = false then .err 400 ("Invalid image")
  else if pred_array.any FVal.isNaNb = true then
    .err 500 ("Model prediction failed: NaN values")
  else if np_unique_count pred_array = 1 then
    .err 500 ("Model prediction failed: All predictions identical")
  else
    match soilTopLabel pred_array with
    | none => .err 500 ("Soil prediction failed: list index out of range")
    | some soil_label =>
      match (topk pred_array 5).mapM (fun i => SOIL_CLASS_NAMES.get? i) with
      | none => .err 500 ("Soil prediction failed: list index out of range")
      | some _ =>
        match (soilTop3 pred_array).mapM
            (fun i => (SOIL_CLASS_NAMES.get? i).map (fun s => (s, fget pred_array i))) with
        | none => .err 500 ("Soil prediction failed: list index out of range")
        | some top_3 =>
          if (FVal.jsonBadb (fget pred_array (np_argmax pred_array))
              || top_3.any (fun p => FVal.jsonBadb p.2)) = true then
            .err 500
              ("Soil prediction failed: Out of range float values are not JSON compliant")
          else
            .ok { soil_label_raw := soil_label,
                  soil_type := soil_label,
                  confidence := fget pred_array (np_argmax pred_array),
                  top_3 := top_3,
                  recommendations := SOIL_RECOMMENDATIONS soil_label,
                  debug_file_path := if write_ok = true then some debug_path else none }

/-- The `/soil-predict-debug` handler (lines 714–779).  It performs no
content-type validation (the argument is ignored, as in the source)
and no NaN/Inf/constant-vector validation.  The debug-file write
(lines 727–729) is not guarded by its own try/except, so a write
failure propagates to the handler's generic `except Exception` clause
and aborts the request with a 500; the same clause also converts the
preprocessing failure (an `HTTPException(400)`) into a 500. -/
def predict_soil_debug (soil_loaded : Bool) (content_type : Option String)
    (write_ok : Bool) (debug_path : String) (image_ok : Bool)
    (pred_array : List FVal) : HResult DebugResponse :=
  if soil_loaded = false then .err 503 ("Soil model not loaded")
  else if write_ok = false then .err 500 ("debug write failed")
  else if image_ok = false then .err 500 ("400: Invalid image")
  else
    match (topk pred_array 5).mapM
        (fun i => (SOIL_CLASS_NAMES.get? i).map (fun s => (s, fget pred_array i))) with
    | none => .err 500 ("list index out of range")
    | some top5 =>
      .ok { debug_mode := true,
            debug_file_saved := debug_path,
            top_5_predictions := top5.enum.map (fun p => (p.1 + 1, p.2)),
            unique_values_count := np_unique_count pred_array }

/-- `np.max` over a finite score vector (value on the empty vector is
irrelevant: numpy raises there and the classifier output is never
empty). -/
def np_max : List ℚ → ℚ
  | [] => 0
  | x :: xs => xs.foldl max x

/-- The numerically-stable softmax of lines 430–431 and 619–620:
`exp_preds = np.exp(pred_array - np.max(pred_array))` followed by
`pred_array = exp_preds / np.sum(exp_preds)`.  The real exponential is
not representable over `ℚ`, so it is passed in as an abstract function
`e`; every property proved below only uses its strict positivity. -/
def softmax (e : ℚ → ℚ) (v : List ℚ) : List ℚ :=
  let exps := v.map (fun x => e (x - np_max v))
  exps.map (fun y => y / exps.sum)

/-- The post-processing step of lines 423–434 and 613–621: if the raw
sum deviates from 1 by more than the 0.01 tolerance, treat the vector
as logits and apply the stable softmax; otherwise return it
unchanged. -/
def postprocess (e : ℚ → ℚ) (v : List ℚ) : List ℚ :=
  if 1 / 100 < |v.sum - 1| then softmax e v else v

/-- One iteration of the padding loop at lines 142–143: append a
generated placeholder label named after the current length. -/
def padStep (names : List String) : List String :=
  names ++ [("Unknown_Class_") ++ toString (names.length + 1)]

/-- The padding loop run `k` times. -/
def padTimes : List String → ℕ → List String
  | names, 0 => names
  | names, k + 1 => padTimes (padStep names) k

/-- Startup reconciliation of the disease label set (lines 139–145):
if the model reports a truthy class count differing from
`len(CLASS_NAMES)`, pad with placeholder names or truncate.  `none`
models a model without an output shape (`num_classes = None`), and
`some 0` is falsy in the `if num_classes and …` guard. -/
def reconciled_CLASS_NAMES (num_classes : Option ℕ) : List String :=
  match num_classes with
  | none => CLASS_NAMES
  | some n =>
    if n ≠ 0 ∧ CLASS_NAMES.length ≠ n then
      if CLASS_NAMES.length < n then padTimes CLASS_NAMES (n - CLASS_NAMES.length)
      else CLASS_NAMES.take n
    else CLASS_NAMES

/-- The soil label set as it stands after startup (lines 191–197).
The source defines `SOIL_CLASS_NAMES` unconditionally and contains no
reconciliation against the soil model's reported output
dimensionality, so the function ignores its argument. -/
def startup_SOIL_CLASS_NAMES (soil_num_classes : Option ℕ) : List String :=
  SOIL_CLASS_NAMES

/-- Sample NaN-free vector used by witness instantiations. -/
def top3SampleVec : List FVal :=
  [FVal.num 3, FVal.num 1, FVal.num 2, FVal.num 1]

/-- Sample post-processed soil vector used by witness instantiations. -/
def soilSampleVec : List FVal :=
  [FVal.num 0, FVal.num 0, FVal.num 0, FVal.num 0, FVal.num 1]

/-- A concrete successful run of the `/soil-predict` handler model. -/
def soilSampleRun : HResult SoilResponse :=
  predict_soil true (some ("image/jpeg")) true ("/tmp/d.jpg") true soilSampleVec

/-- The payload of `soilSampleRun` (with a dummy record in the
unreachable error case). -/
def soilSampleResponse : SoilResponse :=
  match soilSampleRun with
  | .ok r => r
  | .err _ _ =>
    { soil_label_raw := "", soil_type := "", confidence := FVal.num 0,
      top_3 := [], recommendations := none, debug_file_path := none }

/-! ### Properties of the rational softmax model -/

theorem list_sum_map_div (l : List ℚ) (c : ℚ) :
    (l.map (fun y => y / c)).sum = l.sum / c := by
  induction l with
  | nil => simp
  | cons x xs ih => simp [ih, add_div]

theorem softmax_exps_sum_pos (e : ℚ → ℚ) (he : ∀ x, 0 < e x) (v : List ℚ)
    (hv : v ≠ []) : 0 < (v.map (fun x => e (x - np_max v))).sum := by
  refine List.sum_pos _ ?_ ?_
  · intro x hx
    rcases List.mem_map.mp hx with ⟨a, _, rfl⟩
    exact he _
  · simpa using hv

theorem softmax_sum_one (e : ℚ → ℚ) (he : ∀ x, 0 < e x) (v : List ℚ)
    (hv : v ≠ []) : (softmax e v).sum = 1 := by
  have hS := softmax_exps_sum_pos e he v hv
  unfold softmax
  rw [list_sum_map_div]
  exact div_self (ne_of_gt hS)

theorem softmax_mem_pos (e : ℚ → ℚ) (he : ∀ x, 0 < e x) (v : List ℚ)
    (hv : v ≠ []) : ∀ y ∈ softmax e v, 0 < y := by
  have hS := softmax_exps_sum_pos e he v hv
  intro y hy
  unfold softmax at hy
  rcases List.mem_map.mp hy with ⟨b, hb, rfl⟩
  rcases List.mem_map.mp hb with ⟨a, _, rfl⟩
  exact div_pos (he _) hS

/-- C1: for every raw score vector produced by a classifier, if the
absolute difference between the vector's sum and 1 is at most 0.01,
post-processing returns the vector unchanged; otherwise it applies the
numerically-stable softmax and the returned vector sums to 1 within
1e-6 (in this model the softmax output sums to exactly 1). -/
theorem postprocess_idempotent_or_softmax (e : ℚ → ℚ) (he : ∀ x, 0 < e x)
    (v : List ℚ) (hv : v ≠ []) :
    (|v.sum - 1| ≤ 1 / 100 → postprocess e v = v) ∧
    (1 / 100 < |v.sum - 1| → |(postprocess e v).sum - 1| ≤ 1 / 1000000) := by
  constructor
  · intro h
    unfold postprocess
    rw [if_neg (not_lt.mpr h)]
  · intro h
    unfold postprocess
    rw [if_pos h, softmax_sum_one e he v hv]
    norm_num

/-- Witness for C1: instantiated at the logit vector `[3, 5]` with a
concrete positive stand-in for the exponential. -/
theorem postprocess_idempotent_or_softmax_witness :
    ([(3 : ℚ), 5] ≠ ([] : List ℚ)) ∧
    ((|([(3 : ℚ), 5].sum - 1)| ≤ 1 / 100 →
        postprocess (fun _ => 1) [(3 : ℚ), 5] = [(3 : ℚ), 5]) ∧
      (1 / 100 < |([(3 : ℚ), 5].sum - 1)| →
        |(postprocess (fun _ => 1) [(3 : ℚ), 5]).sum - 1| ≤ 1 / 1000000)) :=
  ⟨by decide,
    postprocess_idempotent_or_softmax (fun _ => 1) (fun _ => one_pos)
      [(3 : ℚ), 5] (by decide)⟩

/-- C9 counterexample: the vector `[-1, 2]` sums to exactly 1, so
post-processing returns it unchanged, it passes every validation check
of `/predict` (no NaN, no Inf, not constant) and is served — yet it
contains a negative entry, so the post-processed vector accepted by
the pipeline is not a probability distribution. -/
theorem postprocess_skip_branch_not_distribution :
    postprocess (fun _ => 1) [-(1 : ℚ), 2] = [-(1 : ℚ), 2] ∧
    (-(1 : ℚ)) < 0 ∧
    (predict_disease (some ("image/jpeg")) true
      [FVal.num (-(1 : ℚ)), FVal.num 2]).isOk = true := by
  have hc : ¬ (1 / 100 < |([-(1 : ℚ), 2].sum - 1)|) := by
    norm_num [List.sum_cons, List.sum_nil]
  refine ⟨?_, by norm_num, by decide⟩
  unfold postprocess
  rw [if_neg hc]

/-- C9 amended: when the softmax branch is taken the result is a valid
probability distribution (strictly positive entries summing to exactly
1); when the raw sum is already within 0.01 of 1 the vector is
returned unchanged, so it is only guaranteed to sum to within 0.01 of
1 and may contain negative entries. -/
theorem postprocess_distribution_amended (e : ℚ → ℚ) (he : ∀ x, 0 < e x)
    (v : List ℚ) (hv : v ≠ []) :
    (1 / 100 < |v.sum - 1| →
      (∀ y ∈ postprocess e v, 0 < y) ∧ (postprocess e v).sum = 1) ∧
    (|v.sum - 1| ≤ 1 / 100 →
      postprocess e v = v ∧ |(postprocess e v).sum - 1| ≤ 1 / 100) := by
  constructor
  · intro h
    unfold postprocess
    rw [if_pos h]
    have h1 : postprocess e v = softmax e v := by
      unfold postprocess
      rw [if_pos h]
    exact ⟨softmax_mem_pos e he v hv, softmax_sum_one e he v hv⟩
  · intro h
    have hpp : postprocess e v = v := by
      unfold postprocess
      rw [if_neg (not_lt.mpr h)]
    refine ⟨hpp, ?_⟩
    rw [hpp]
    exact h

/-- Witness for the amended C9, instantiated at the vector `[2]`. -/
theorem postprocess_distribution_amended_witness :
    ([(2 : ℚ)] ≠ ([] : List ℚ)) ∧
    ((1 / 100 < |([(2 : ℚ)].sum - 1)| →
        (∀ y ∈ postprocess (fun _ => 1) [(2 : ℚ)], 0 < y) ∧
        (postprocess (fun _ => 1) [(2 : ℚ)]).sum = 1) ∧
      (|([(2 : ℚ)].sum - 1)| ≤ 1 / 100 →
        postprocess (fun _ => 1) [(2 : ℚ)] = [(2 : ℚ)] ∧
        |(postprocess (fun _ => 1) [(2 : ℚ)]).sum - 1| ≤ 1 / 100)) :=
  ⟨by decide,
    postprocess_distribution_amended (fun _ => 1) (fun _ => one_pos)
      [(2 : ℚ)] (by decide)⟩

/-! ### Properties of the FVal order, argsort and argmax -/

theorem FVal.ltb_irrefl (a : FVal) : FVal.ltb a a = false := by
  cases a <;> simp [FVal.ltb]

theorem FVal.ltb_trans {a b c : FVal} (h1 : FVal.ltb a b = true)
    (h2 : FVal.ltb b c = true) : FVal.ltb a c = true := by
  cases a <;> cases b <;> cases c <;> simp_all [FVal.ltb]
  exact lt_trans h1 h2

theorem FVal.ltb_tricho (a b : FVal) (ha : a ≠ FVal.nan) (hb : b ≠ FVal.nan) :
    FVal.ltb a b = true ∨ a = b ∨ FVal.ltb b a = true := by
  cases a <;> cases b <;> simp_all [FVal.ltb]
  exact lt_trichotomy _ _

theorem fget_ne_nan {v : List FVal} (hn : ∀ x ∈ v, x ≠ FVal.nan) (i : ℕ) :
    fget v i ≠ FVal.nan := by
  unfold fget
  cases h : v.get? i with
  | none => simp
  | some x => exact hn x (List.get?_mem h)

theorem ixLe_iff (v : List FVal) (i j : ℕ) :
    ixLe v i j ↔
      (FVal.ltb (fget v i) (fget v j) = true ∨ (fget v i = fget v j ∧ i ≤ j)) := by
  unfold ixLe ixLeb
  simp [Bool.or_eq_true, Bool.and_eq_true, beq_iff_eq, decide_eq_true_iff]

theorem ixLe_total (v : List FVal) (hn : ∀ x ∈ v, x ≠ FVal.nan) (i j : ℕ) :
    ixLe v i j ∨ ixLe v j i := by
  rcases FVal.ltb_tricho (fget v i) (fget v j) (fget_ne_nan hn i) (fget_ne_nan hn j)
    with h | h | h
  · exact Or.inl ((ixLe_iff v i j).mpr (Or.inl h))
  · rcases Nat.le_total i j with hij | hij
    · exact Or.inl ((ixLe_iff v i j).mpr (Or.inr ⟨h, hij⟩))
    · exact Or.inr ((ixLe_iff v j i).mpr (Or.inr ⟨h.symm, hij⟩))
  · exact Or.inr ((ixLe_iff v j i).mpr (Or.inl h))

theorem ixLe_trans (v : List FVal) (i j k : ℕ) (h1 : ixLe v i j)
    (h2 : ixLe v j k) : ixLe v i k := by
  rcases (ixLe_iff v i j).mp h1 with h1 | ⟨h1e, h1l⟩ <;>
    rcases (ixLe_iff v j k).mp h2 with h2 | ⟨h2e, h2l⟩
  · exact (ixLe_iff v i k).mpr (Or.inl (FVal.ltb_trans h1 h2))
  · exact (ixLe_iff v i k).mpr (Or.inl (by rw [← h2e]; exact h1))
  · exact (ixLe_iff v i k).mpr (Or.inl (by rw [h1e]; exact h2))
  · exact (ixLe_iff v i k).mpr (Or.inr ⟨h1e.trans h2e, h1l.trans h2l⟩)

theorem np_argsort_perm (v : List FVal) :
    (np_argsort v).Perm (List.range v.length) :=
  List.perm_insertionSort _ _

theorem np_argsort_length (v : List FVal) :
    (np_argsort v).length = v.length := by
  rw [(np_argsort_perm v).length_eq, List.length_range]

theorem np_argsort_sorted (v : List FVal) (hn : ∀ x ∈ v, x ≠ FVal.nan) :
    List.Pairwise (ixLe v) (np_argsort v) := by
  haveI : IsTotal ℕ (ixLe v) := ⟨ixLe_total v hn⟩
  haveI : IsTrans ℕ (ixLe v) := ⟨ixLe_trans v⟩
  exact List.sorted_insertionSort (ixLe v) (List.range v.length)

theorem topk_length (v : List FVal) (k : ℕ) :
    (topk v k).length = min k v.length := by
  unfold topk
  rw [List.length_reverse, List.length_drop, np_argsort_length]
  omega

theorem topk_pairwise (v : List FVal) (k : ℕ) (hn : ∀ x ∈ v, x ≠ FVal.nan) :
    List.Pairwise (fun i j => ixLe v j i) (topk v k) := by
  unfold topk
  rw [List.pairwise_reverse]
  exact (np_argsort_sorted v hn).sublist (List.drop_sublist _ _)

theorem topk_desc (v : List FVal) (k : ℕ) (hn : ∀ x ∈ v, x ≠ FVal.nan) :
    List.Pairwise (fun i j => FVal.leb (fget v j) (fget v i) = true) (topk v k) := by
  refine (topk_pairwise v k hn).imp ?_
  intro i j h
  rcases (ixLe_iff v j i).mp h with h | ⟨he, _⟩
  · simp [FVal.leb, h]
  · simp [FVal.leb, he]

theorem topk_tie_order (v : List FVal) (k : ℕ) (hn : ∀ x ∈ v, x ≠ FVal.nan) :
    List.Pairwise (fun i j => fget v i = fget v j → j ≤ i) (topk v k) := by
  refine (topk_pairwise v k hn).imp ?_
  intro i j h heq
  rcases (ixLe_iff v j i).mp h with h | ⟨_, hle⟩
  · rw [heq] at h
    simp [FVal.ltb_irrefl] at h
  · exact hle

theorem np_argmax_go_lt (xs : List FVal) : ∀ (i best : ℕ) (bv : FVal),
    best < i → np_argmax_go xs i best bv < i + xs.length := by
  induction xs with
  | nil =>
    intro i best bv h
    simpa [np_argmax_go] using h
  | cons x xs ih =>
    intro i best bv h
    unfold np_argmax_go
    by_cases hx : FVal.ltb bv x = true
    · rw [if_pos hx]
      have := ih (i + 1) i x (Nat.lt_succ_self i)
      simp only [List.length_cons]
      omega
    · rw [if_neg hx]
      have := ih (i + 1) best bv (Nat.lt_trans h (Nat.lt_succ_self i))
      simp only [List.length_cons]
      omega

theorem np_argmax_lt (v : List FVal) (hv : v ≠ []) : np_argmax v < v.length := by
  match v with
  | x :: xs =>
    unfold np_argmax
    have := np_argmax_go_lt xs 1 0 x (by omega)
    simp only [List.length_cons]
    omega

theorem diseaseTopIdx_lt (v : List FVal) (hv : v ≠ []) :
    diseaseTopIdx v < CLASS_NAMES.length := by
  unfold diseaseTopIdx
  by_cases h : CLASS_NAMES.length ≤ np_argmax v
  · rw [if_pos h]
    have hvlen : 0 < v.length := List.length_pos.mpr hv
    have htlen : (v.take CLASS_NAMES.length).length = min CLASS_NAMES.length v.length :=
      List.length_take _ _
    have h39 : CLASS_NAMES.length = 39 := rfl
    have hpos : 0 < (v.take CLASS_NAMES.length).length := by
      rw [htlen]
      omega
    have hlt := np_argmax_lt (v.take CLASS_NAMES.length) (List.ne_nil_of_length_pos hpos)
    rw [htlen] at hlt
    omega
  · rw [if_neg h]
    omega

/-! ### Validation claims -/

theorem any_const (p : FVal → Bool) (c : FVal) : ∀ v : List FVal, v ≠ [] →
    (∀ x ∈ v, x = c) → v.any p = p c := by
  intro v
  induction v with
  | nil => intro h; exact absurd rfl h
  | cons x xs ih =>
    intro _ hc
    have hx : x = c := hc x (List.mem_cons_self x xs)
    by_cases hxs : xs = []
    · subst hxs hx
      simp [List.any_cons]
    · rw [List.any_cons, ih hxs (fun y hy => hc y (List.mem_cons_of_mem x hy)), hx,
        Bool.or_self]

theorem dedup_const (c : FVal) : ∀ v : List FVal, v ≠ [] →
    (∀ x ∈ v, x = c) → v.dedup = [c] := by
  intro v
  induction v with
  | nil => intro h; exact absurd rfl h
  | cons x xs ih =>
    intro _ hc
    have hx : x = c := hc x (List.mem_cons_self x xs)
    by_cases hxs : xs = []
    · subst hxs hx
      simp
    · have hd := ih hxs (fun y hy => hc y (List.mem_cons_of_mem x hy))
      have hmem : x ∈ xs := by
        match xs, hxs with
        | z :: zs, _ =>
          have hz : z = c := hc z (List.mem_cons_of_mem x (List.mem_cons_self z zs))
          rw [hx, ← hz]
          exact List.mem_cons_self z zs
      rw [List.dedup_cons_of_mem hmem, hd]

/-- C2 counterexample: the post-processed vector `[-inf, 1, 2, 3]`
contains an Infinity entry, yet `/soil-predict` serves it with a 200:
the handler validates only NaN (never `np.isinf`), the arg-max lands
on the finite entry `3`, the `-inf` entry stays outside the top-3, so
every float that reaches the serialized response is finite and even
the `JSONResponse` renderer (whose `allow_nan=False` would otherwise
turn a non-finite confidence into an in-handler 500) goes through. -/
theorem soil_neginf_escapes_rejection :
    ([FVal.neginf, FVal.num 1, FVal.num 2, FVal.num 3].any FVal.isInfb = true) ∧
    (predict_soil true (some ("image/jpeg")) true ("/tmp/d.jpg") true
      [FVal.neginf, FVal.num 1, FVal.num 2, FVal.num 3]).isOk = true := by
  decide

/-- C2 amended: `/predict` rejects a post-processed vector containing
any NaN or any Infinity entry with a 500 error; `/soil-predict`'s
validation rejects only NaN entries — it has no Infinity check, and
although a non-finite value that reaches the response's confidence
fields still fails with a 500 when `JSONResponse` renders it, a `-inf`
entry kept out of those fields is served with a 200 — and
`/soil-predict-debug` performs no such validation in the handler. -/
theorem nan_inf_rejection_amended (v : List FVal) (ct : Option String)
    (hct : validContentType ct = true) (w : Bool) (dp : String) :
    ((v.any FVal.isNaNb = true ∨ v.any FVal.isInfb = true) →
      (predict_disease ct true v).statusOf = some 500) ∧
    (v.any FVal.isNaNb = true →
      (predict_soil true ct w dp true v).statusOf = some 500) := by
  constructor
  · rintro (h | h)
    · simp [predict_disease, HResult.statusOf, hct, h]
    · by_cases hnan : v.any FVal.isNaNb = true
      · simp [predict_disease, HResult.statusOf, hct, hnan]
      · simp [predict_disease, HResult.statusOf, hct, hnan, h]
  · intro h
    simp [predict_soil, HResult.statusOf, hct, h]

/-- Witness for the amended C2 at the vector `[NaN, 1]`. -/
theorem nan_inf_rejection_amended_witness :
    validContentType (some ("image/jpeg")) = true ∧
    ((([FVal.nan, FVal.num 1].any FVal.isNaNb = true ∨
        [FVal.nan, FVal.num 1].any FVal.isInfb = true) →
        (predict_disease (some ("image/jpeg")) true
          [FVal.nan, FVal.num 1]).statusOf = some 500) ∧
      ([FVal.nan, FVal.num 1].any FVal.isNaNb = true →
        (predict_soil true (some ("image/jpeg")) true ("d") true
          [FVal.nan, FVal.num 1]).statusOf = some 500)) :=
  ⟨by decide,
    nan_inf_rejection_amended [FVal.nan, FVal.num 1] (some ("image/jpeg"))
      (by decide) true ("d")⟩

/-- C3 counterexample: `/soil-predict-debug` does not reject a
constant post-processed vector — it serves a 200 response (merely
reporting `unique_values_count = 1`), where the claim requires a 500
`InvalidPrediction` failure. -/
theorem debug_constant_vector_accepted :
    np_unique_count (List.replicate 5 (FVal.num 7)) = 1 ∧
    (predict_soil_debug true (some ("image/jpeg")) true ("/tmp/d.jpg") true
      (List.replicate 5 (FVal.num 7))).isOk = true := by
  decide

/-- C3 amended: `/predict` and `/soil-predict` reject a constant
post-processed vector (all entries numerically identical) with a 500
error; `/soil-predict-debug` performs no such check. -/
theorem constant_vector_rejected_amended (c : FVal) (v : List FVal) (hv : v ≠ [])
    (hc : ∀ x ∈ v, x = c) (ct : Option String)
    (hct : validContentType ct = true) (w : Bool) (dp : String) :
    (predict_disease ct true v).statusOf = some 500 ∧
    (predict_soil true ct w dp true v).statusOf = some 500 := by
  have hnan := any_const FVal.isNaNb c v hv hc
  have hinf := any_const FVal.isInfb c v hv hc
  have huniq : np_unique_count v = 1 := by
    unfold np_unique_count
    rw [dedup_const c v hv hc]
    rfl
  cases c with
  | nan =>
    exact ⟨by simp [predict_disease, HResult.statusOf, hct, hnan, FVal.isNaNb],
      by simp [predict_soil, HResult.statusOf, hct, hnan, FVal.isNaNb]⟩
  | posinf =>
    exact ⟨by simp [predict_disease, HResult.statusOf, hct, hnan, hinf,
        FVal.isNaNb, FVal.isInfb],
      by simp [predict_soil, HResult.statusOf, hct, hnan, huniq,
        FVal.isNaNb]⟩
  | neginf =>
    exact ⟨by simp [predict_disease, HResult.statusOf, hct, hnan, hinf,
        FVal.isNaNb, FVal.isInfb],
      by simp [predict_soil, HResult.statusOf, hct, hnan, huniq,
        FVal.isNaNb]⟩
  | num q =>
    exact ⟨by simp [predict_disease, HResult.statusOf, hct, hnan, hinf, huniq,
        FVal.isNaNb, FVal.isInfb],
      by simp [predict_soil, HResult.statusOf, hct, hnan, huniq,
        FVal.isNaNb]⟩

/-- Witness for the amended C3 at the constant vector `[7, 7]`. -/
theorem constant_vector_rejected_amended_witness :
    ([FVal.num 7, FVal.num 7] ≠ ([] : List FVal)) ∧
    validContentType (some ("image/png")) = true ∧
    ((predict_disease (some ("image/png")) true
        [FVal.num 7, FVal.num 7]).statusOf = some 500 ∧
      (predict_soil true (some ("image/png")) true ("d") true
        [FVal.num 7, FVal.num 7]).statusOf = some 500) :=
  ⟨by decide, by decide,
    constant_vector_rejected_amended (FVal.num 7) [FVal.num 7, FVal.num 7]
      (by decide) (by decide) (some ("image/png")) (by decide) true ("d")⟩

/-! ### Content-type gate and top-prediction claims -/

/-- C4 counterexample: `/soil-predict-debug` never inspects the
content type — an upload declared `text/plain` (whose bytes decode as
an image) sails through to model invocation and is served with 200,
where the claim requires a 400 before any model call. -/
theorem debug_bad_content_type_accepted :
    validContentType (some ("text/plain")) = false ∧
    (predict_soil_debug true (some ("text/plain")) true ("/tmp/d.jpg") true
      [FVal.num 0, FVal.num 1]).isOk = true := by
  decide

/-- C4 amended: `/predict` and `/soil-predict` return 400 on a missing
or non-`image/` content type before the classifier is invoked (the
result does not depend on the prediction vector or on any later
stage); `/soil-predict-debug` performs no content-type validation. -/
theorem content_type_gate_amended (ct : Option String)
    (hct : validContentType ct = false) (img : Bool) (v : List FVal)
    (w : Bool) (dp : String) :
    predict_disease ct img v = HResult.err 400 ("File must be an image") ∧
    predict_soil true ct w dp img v = HResult.err 400 ("File must be an image") := by
  constructor
  · simp [predict_disease, hct]
  · simp [predict_soil, hct]

/-- Witness for the amended C4 at content type `text/plain`. -/
theorem content_type_gate_amended_witness :
    validContentType (some ("text/plain")) = false ∧
    (predict_disease (some ("text/plain")) true [FVal.num 1]
        = HResult.err 400 ("File must be an image") ∧
      predict_soil true (some ("text/plain")) true ("d") true [FVal.num 1]
        = HResult.err 400 ("File must be an image")) :=
  ⟨by decide,
    content_type_gate_amended (some ("text/plain")) (by decide) true
      [FVal.num 1] true ("d")⟩

/-- C5 counterexample: on `/soil-predict` the arg-max is taken over
the whole post-processed vector with no restriction to the label-set
range; a 6-entry vector whose maximum sits at index 5 makes the label
lookup `SOIL_CLASS_NAMES[5]` raise `IndexError` and the request fails
with a 500 instead of returning a valid label. -/
theorem soil_argmax_out_of_range :
    np_argmax [FVal.num 0, FVal.num 0, FVal.num 0, FVal.num 0, FVal.num 0,
      FVal.num 1] = 5 ∧
    SOIL_CLASS_NAMES.length = 5 ∧
    (predict_soil true (some ("image/jpeg")) true ("/tmp/d.jpg") true
      [FVal.num 0, FVal.num 0, FVal.num 0, FVal.num 0, FVal.num 0,
        FVal.num 1]).statusOf = some 500 := by
  decide

/-- C5 amended: only `/predict` restricts the arg-max search to the
first `len(CLASS_NAMES)` entries when the unrestricted arg-max falls
outside the label set, so its top-label index is always valid;
`/soil-predict` looks up the unrestricted arg-max index directly, and
the lookup fails (`none`, an `IndexError` in Python) when that index
reaches past the 5-entry soil label set. -/
theorem top_idx_valid_amended (v : List FVal) (hv : v ≠ []) :
    diseaseTopIdx v < CLASS_NAMES.length ∧
    soilTopLabel [FVal.num 0, FVal.num 0, FVal.num 0, FVal.num 0, FVal.num 0,
      FVal.num 1] = none :=
  ⟨diseaseTopIdx_lt v hv, by decide⟩

/-- Witness for the amended C5 at the one-entry vector `[1]`. -/
theorem top_idx_valid_amended_witness :
    ([FVal.num 1] ≠ ([] : List FVal)) ∧
    (diseaseTopIdx [FVal.num 1] < CLASS_NAMES.length ∧
      soilTopLabel [FVal.num 0, FVal.num 0, FVal.num 0, FVal.num 0, FVal.num 0,
        FVal.num 1] = none) :=
  ⟨by decide, top_idx_valid_amended [FVal.num 1] (by decide)⟩

/-- C6 counterexample: for the post-processed vector `[2, 2, 1]` the
top-3 of `/soil-predict` comes out as indices `[1, 0, 2]` — the two
tied entries (indices 0 and 1, equal confidence) appear in *reversed*
original index order, because `argsort[-3:][::-1]` reverses the
ascending stable order; the claim's tie-breaking clause (original
index order) fails. -/
theorem top3_tie_order_reversed :
    soilTop3 [FVal.num 2, FVal.num 2, FVal.num 1] = [1, 0, 2] ∧
    fget [FVal.num 2, FVal.num 2, FVal.num 1] 0
      = fget [FVal.num 2, FVal.num 2, FVal.num 1] 1 ∧
    ¬ List.Pairwise
      (fun i j => fget [FVal.num 2, FVal.num 2, FVal.num 1] i
          = fget [FVal.num 2, FVal.num 2, FVal.num 1] j → i ≤ j)
      (soilTop3 [FVal.num 2, FVal.num 2, FVal.num 1]) := by
  decide

/-- C6 amended: the top-3 lists of `/predict` (computed on the vector
restricted to the label-set range) and `/soil-predict` have length
`min 3 C`, are ordered by non-increasing confidence, and entries with
equal confidence appear in *reverse* original index order (the
ascending stable argsort is reversed by `[::-1]`). -/
theorem top3_spec_amended (v : List FVal) (hn : ∀ x ∈ v, x ≠ FVal.nan) :
    ((soilTop3 v).length = min 3 v.length ∧
      List.Pairwise (fun i j => FVal.leb (fget v j) (fget v i) = true)
        (soilTop3 v) ∧
      List.Pairwise (fun i j => fget v i = fget v j → j ≤ i) (soilTop3 v)) ∧
    ((diseaseTop3 v).length = min 3 (v.take CLASS_NAMES.length).length ∧
      List.Pairwise
        (fun i j => FVal.leb (fget (v.take CLASS_NAMES.length) j)
            (fget (v.take CLASS_NAMES.length) i) = true) (diseaseTop3 v) ∧
      List.Pairwise
        (fun i j => fget (v.take CLASS_NAMES.length) i
            = fget (v.take CLASS_NAMES.length) j → j ≤ i) (diseaseTop3 v)) := by
  have hn' : ∀ x ∈ v.take CLASS_NAMES.length, x ≠ FVal.nan :=
    fun x hx => hn x (List.take_subset _ _ hx)
  exact ⟨⟨topk_length v 3, topk_desc v 3 hn, topk_tie_order v 3 hn⟩,
    ⟨topk_length _ 3, topk_desc _ 3 hn', topk_tie_order _ 3 hn'⟩⟩

/-- Witness for the amended C6 at the NaN-free vector `[3, 1, 2, 1]`. -/
theorem top3_spec_amended_witness :
    (∀ x ∈ top3SampleVec, x ≠ FVal.nan) ∧
    (((soilTop3 top3SampleVec).length = min 3 top3SampleVec.length ∧
      List.Pairwise
        (fun i j => FVal.leb (fget top3SampleVec j) (fget top3SampleVec i) = true)
        (soilTop3 top3SampleVec) ∧
      List.Pairwise
        (fun i j => fget top3SampleVec i = fget top3SampleVec j → j ≤ i)
        (soilTop3 top3SampleVec)) ∧
    ((diseaseTop3 top3SampleVec).length
        = min 3 (top3SampleVec.take CLASS_NAMES.length).length ∧
      List.Pairwise
        (fun i j => FVal.leb (fget (top3SampleVec.take CLASS_NAMES.length) j)
            (fget (top3SampleVec.take CLASS_NAMES.length) i) = true)
        (diseaseTop3 top3SampleVec) ∧
      List.Pairwise
        (fun i j => fget (top3SampleVec.take CLASS_NAMES.length) i
            = fget (top3SampleVec.take CLASS_NAMES.length) j → j ≤ i)
        (diseaseTop3 top3SampleVec))) :=
  ⟨by decide, top3_spec_amended top3SampleVec (by decide)⟩

/-! ### Startup reconciliation, debug-write and response-field claims -/

theorem padTimes_length : ∀ (k : ℕ) (names : List String),
    (padTimes names k).length = names.length + k := by
  intro k
  induction k with
  | zero => intro names; rfl
  | succ k ih =>
    intro names
    show (padTimes (padStep names) k).length = names.length + (k + 1)
    rw [ih (padStep names)]
    unfold padStep
    rw [List.length_append]
    simp
    omega

/-- C7 counterexample: the soil label set is never reconciled — with a
soil model reporting 4 output classes, the label set after startup is
still the 5-entry `SOIL_CLASS_NAMES`, so its length does not equal the
model's reported output dimensionality. -/
theorem soil_labels_not_reconciled :
    startup_SOIL_CLASS_NAMES (some 4) = SOIL_CLASS_NAMES ∧
    (startup_SOIL_CLASS_NAMES (some 4)).length = 5 ∧ (5 : ℕ) ≠ 4 := by
  decide

/-- C7 amended: only the primary (disease) classifier's label set is
reconciled at startup — for any truthy reported class count `n` the
resized `CLASS_NAMES` has length exactly `n` (padded with placeholder
names or truncated); the soil label set is defined unconditionally and
is never resized against the soil model. -/
theorem class_names_reconciled_amended (n : ℕ) (hn : n ≠ 0) :
    (reconciled_CLASS_NAMES (some n)).length = n ∧
    startup_SOIL_CLASS_NAMES (some n) = SOIL_CLASS_NAMES := by
  have h39 : CLASS_NAMES.length = 39 := rfl
  refine ⟨?_, rfl⟩
  unfold reconciled_CLASS_NAMES
  show (if n ≠ 0 ∧ CLASS_NAMES.length ≠ n then
      if CLASS_NAMES.length < n then padTimes CLASS_NAMES (n - CLASS_NAMES.length)
      else List.take n CLASS_NAMES
    else CLASS_NAMES).length = n
  by_cases hne : CLASS_NAMES.length ≠ n
  · rw [if_pos ⟨hn, hne⟩]
    by_cases hlt : CLASS_NAMES.length < n
    · rw [if_pos hlt, padTimes_length]
      omega
    · rw [if_neg hlt, List.length_take]
      omega
  · rw [if_neg (fun hcon => hne hcon.2)]
    omega

/-- Witness for the amended C7 at a reported class count of 41. -/
theorem class_names_reconciled_amended_witness :
    (41 : ℕ) ≠ 0 ∧
    ((reconciled_CLASS_NAMES (some 41)).length = 41 ∧
      startup_SOIL_CLASS_NAMES (some 41) = SOIL_CLASS_NAMES) :=
  ⟨by decide, class_names_reconciled_amended 41 (by decide)⟩

/-- C8 counterexample: on `/soil-predict-debug` the debug-file write
is not guarded by its own try/except, so a write failure aborts the
request with a 500 — while the very same failure on `/soil-predict`
is logged and the request still succeeds. -/
theorem debug_write_failure_aborts :
    predict_soil_debug true (some ("image/jpeg")) false ("/tmp/d.jpg") true
      [FVal.num 0, FVal.num 1] = HResult.err 500 ("debug write failed") ∧
    (predict_soil true (some ("image/jpeg")) false ("/tmp/d.jpg") true
      [FVal.num 0, FVal.num 1]).isOk = true := by
  decide

/-- C8 amended: on `/soil-predict` a failure of the best-effort
debug-copy write never changes the request outcome (the handler's
status is identical for any two write outcomes; only the
`debug_file_path` metadata differs); on `/soil-predict-debug` a write
failure aborts the request with a 500. -/
theorem soil_write_failure_nonfatal_amended (loaded : Bool)
    (ct : Option String) (dp : String) (img : Bool) (v : List FVal)
    (w1 w2 : Bool) :
    (predict_soil loaded ct w1 dp img v).statusOf
      = (predict_soil loaded ct w2 dp img v).statusOf := by
  unfold predict_soil
  by_cases h1 : loaded = false
  · simp only [if_pos h1]
  simp only [if_neg h1]
  by_cases h2 : validContentType ct = false
  · simp only [if_pos h2]
  simp only [if_neg h2]
  by_cases h3 : img = false
  · simp only [if_pos h3]
  simp only [if_neg h3]
  by_cases h4 : v.any FVal.isNaNb = true
  · simp only [if_pos h4]
  simp only [if_neg h4]
  by_cases h5 : np_unique_count v = 1
  · simp only [if_pos h5]
  simp only [if_neg h5]
  cases h6 : soilTopLabel v with
  | none => rfl
  | some lbl =>
    cases h7 : (topk v 5).mapM (fun i => SOIL_CLASS_NAMES.get? i) with
    | none => rfl
    | some l5 =>
      cases h8 : (soilTop3 v).mapM
          (fun i => (SOIL_CLASS_NAMES.get? i).map (fun s => (s, fget v i))) with
      | none => rfl
      | some t3 =>
        by_cases h9 : (FVal.jsonBadb (fget v (np_argmax v))
            || t3.any (fun p => FVal.jsonBadb p.2)) = true
        · simp only [if_pos h9]
        · simp only [if_neg h9]
          rfl

/-- C10: in every successful `/soil-predict` response the
`soil_label_raw` and `soil_type` fields carry the same string, and it
is exactly the label found at the top-prediction (arg-max) index of
the soil label set. -/
theorem soil_response_label_fields (loaded : Bool) (ct : Option String)
    (w : Bool) (dp : String) (img : Bool) (v : List FVal) (r : SoilResponse)
    (h : predict_soil loaded ct w dp img v = HResult.ok r) :
    r.soil_label_raw = r.soil_type ∧ soilTopLabel v = some r.soil_type := by
  unfold predict_soil at h
  split at h
  · simp at h
  split at h
  · simp at h
  split at h
  · simp at h
  split at h
  · simp at h
  split at h
  · simp at h
  split at h
  · simp at h
  next lbl heq =>
    split at h
    · simp at h
    next l5 h7 =>
      split at h
      · simp at h
      next t3 h8 =>
        split at h
        · simp at h
        cases h
        exact ⟨rfl, heq⟩

/-- Witness for C10: a concrete successful soil prediction. -/
theorem soil_response_label_fields_witness :
    soilSampleResponse.soil_label_raw = soilSampleResponse.soil_type ∧
    soilTopLabel soilSampleVec = some soilSampleResponse.soil_type :=
  soil_response_label_fields true (some ("image/jpeg")) true ("/tmp/d.jpg")
    true soilSampleVec soilSampleResponse (by decide)
